import Mathlib

/-!
# virt-experiments: `virtest.c` and `libvirt.c`

A shallow embedding of the two diagnostic programs of the repository.  Both
programs connect to a hypervisor through libvirt, print an inventory report
and exit.  Every answer of the library is a field of `Hypervisor`; a run of a
function is its return value together with the ordered list of the output it
writes and of the library calls that acquire or release a resource.
-/

/-! ## Data model -/

/-- The bytes of a NUL-terminated C string, the terminator excluded. -/
abbrev CStr := List Nat

/-- An opaque libvirt object pointer (`virDomainPtr`, `virStoragePoolPtr`). -/
abbrev Handle := Nat

/-- Length of a C string (`strlen`). -/
def strlen (s : CStr) : Nat := s.length

/-- A fresh copy of a C string (`strdup`). -/
def strdup (s : CStr) : CStr := s

/-- An argument of a `printf`-style call: a number, a string held in a
variable (`none` for NULL), a string literal of the source, or a `float`. -/
inductive Arg where
  | int (v : Int)
  | nat (v : Nat)
  | str (s : Option CStr)
  | lit (s : String)
  | real (q : Rat)
  deriving DecidableEq

/-- An observable step of a run: a `printf` to standard output, a message on
standard error (`fprintf(stderr, ...)`, `errx`), or a library call that opens
or closes the session, looks a domain up, or releases a handle.
`connectOpenAuth` carries the URI (`none` for NULL) and the pair in
`virt_cred` that the callback reads while the call runs. -/
inductive Event where
  | stdout (fmt : String) (args : List Arg)
  | stderr (fmt : String) (args : List Arg)
  | connectOpenAuth (name : Option CStr) (username passwd : CStr)
  | connectClose
  | storagePoolFree (pool : Handle)
  | domainLookupByName (name : CStr)
  | domainFree (dom : Handle)
  deriving DecidableEq

/-- The event is a write to standard output. -/
def Event.isStdout : Event → Bool
  | .stdout _ _ => true
  | _ => false

/-- The event is a call of `virConnectOpenAuth`. -/
def Event.isOpen : Event → Bool
  | .connectOpenAuth _ _ _ => true
  | _ => false

/-- The event is a call of `virConnectClose`. -/
def Event.isClose : Event → Bool
  | .connectClose => true
  | _ => false

/-- The event is a call of `virDomainLookupByName`. -/
def Event.isLookup : Event → Bool
  | .domainLookupByName _ => true
  | _ => false

/-- An event of the inventory: a line on standard output or the release of
a storage pool or domain handle. -/
def Event.isInventory : Event → Bool
  | .stdout _ _ => true
  | .storagePoolFree _ => true
  | .domainFree _ => true
  | _ => false

/-- The handles released by `virStoragePoolFree`, in order. -/
def poolsFreed : List Event → List Handle
  | [] => []
  | .storagePoolFree h :: t => h :: poolsFreed t
  | _ :: t => poolsFreed t

/-- The handles released by `virDomainFree`, in order. -/
def domainsFreed : List Event → List Handle
  | [] => []
  | .domainFree h :: t => h :: domainsFreed t
  | _ :: t => domainsFreed t

/-! ## Credential callback (`authCb`, identical text in both files) -/

/-- Value of `VIR_CRED_USERNAME` in libvirt's `virConnectCredentialType`. -/
def VIR_CRED_USERNAME : Int := 1

/-- Value of `VIR_CRED_AUTHNAME` in libvirt's `virConnectCredentialType`. -/
def VIR_CRED_AUTHNAME : Int := 2

/-- Value of `VIR_CRED_PASSPHRASE` in libvirt's `virConnectCredentialType`. -/
def VIR_CRED_PASSPHRASE : Int := 5

/-- The fields of `virConnectCredential` the callback reads or writes.
`result` is `none` for a NULL pointer; `resultlen` is an `unsigned int`. -/
structure Credential where
  type : Int
  result : Option CStr
  resultlen : Nat
  deriving DecidableEq

/-- The process-wide pair `virt_cred` (`struct cred`). -/
structure Cred where
  username : CStr
  passwd : CStr
  deriving DecidableEq

/-- What one call of `authCb` leaves behind: its return value, the credential
array as written so far, and what it printed. -/
structure AuthResult where
  ret : Int
  cred : List Credential
  trace : List Event

/-- The callback `authCb(cred, ncred, cbdata)`: the `for` loop over the
`ncred` entries of `cred`, with `vcred` the pair behind `cbdata`.  The store
into `resultlen` converts the `size_t` length to `unsigned int`. -/
def authCb (cred : List Credential) (vcred : Cred) : AuthResult :=
  match cred with
  | [] => ⟨0, [], []⟩
  | c :: rest =>
    if c.type = VIR_CRED_USERNAME ∨ c.type = VIR_CRED_AUTHNAME then
      let len := strlen vcred.username
      if len = 0 then
        ⟨-1, c :: rest, [Event.stdout "invalid user\n" []]⟩
      else
        let r := authCb rest vcred
        ⟨r.ret, { c with result := some (strdup vcred.username),
                         resultlen := len % 2 ^ 32 } :: r.cred, r.trace⟩
    else if c.type = VIR_CRED_PASSPHRASE then
      let len := strlen vcred.passwd
      if len = 0 then
        ⟨-1, c :: rest, [Event.stdout "invalid pass\n" []]⟩
      else
        let r := authCb rest vcred
        ⟨r.ret, { c with result := some (strdup vcred.passwd),
                         resultlen := len % 2 ^ 32 } :: r.cred, r.trace⟩
    else
      let r := authCb rest vcred
      ⟨r.ret, c :: r.cred,
        Event.stdout "Cred type not found: %d\n" [Arg.int c.type] :: r.trace⟩


/-! ## Number conversions -/

/-- Conversion of an `unsigned long` to `int` at a call with an `int`
parameter: the low 32 bits, read as two's complement. -/
def toInt (n : Nat) : Int :=
  let m : Nat := n % 2 ^ 32
  if m < 2 ^ 31 then (m : Int) else (m : Int) - 2 ^ 32

/-- Number of binary digits of `n`, by halving at most `fuel` times. -/
def bitsAux : Nat → Nat → Nat
  | 0, _ => 0
  | fuel + 1, n => if n = 0 then 0 else bitsAux fuel (n / 2) + 1

/-- Number of binary digits of `n` (`n` halvings always suffice). -/
def bits (n : Nat) : Nat := bitsAux n n

/-- Conversion of an integer to `float` (IEEE binary32: a 24-bit significand,
round to nearest, ties to even).  The result is the value of the float, again
an integer; every argument the programs convert is below `2^64`, far inside
the range of `float`. -/
def toFloat (z : Int) : Int :=
  let a := z.natAbs
  let e := bits a - 24
  let q := a / 2 ^ e
  let r := a % 2 ^ e
  let half := 2 ^ e / 2
  let q1 := if half < r ∨ (r = half ∧ 0 < e ∧ q % 2 = 1) then q + 1 else q
  z.sign * ((q1 * 2 ^ e : Nat) : Int)

/-! ## The library's answers -/

/-- The fields of `virDomainInfo` the programs print. -/
structure DomainInfo where
  state : Nat
  maxMem : Nat
  memory : Nat
  nrVirtCpu : Nat
  cpuTime : Nat

/-- The fields of `virNodeInfo` the programs print. -/
structure NodeInfo where
  model : CStr
  memory : Nat
  cpus : Nat

/-- Value of `VIR_DOMAIN_RUNNING` in libvirt's header. -/
def VIR_DOMAIN_RUNNING : Nat := 1

/-- Value of `EXIT_FAILURE`. -/
def EXIT_FAILURE : Int := 1

/-- What the library answers during one run.  A pointer result is `none` for
NULL; a listing is `none` for the error return `-1` and otherwise the
returned array, whose length is the call's return value.  `version`,
`libVersion`, `nodeInfo`, `secmodModel` and `secmodDoi` are the contents of
the output variables after the call, whatever the call returned. -/
structure Hypervisor where
  connectOpenAuth : Option CStr → Bool
  capabilities : Option CStr
  uri : Option CStr
  hostname : Option CStr
  version : Nat
  libVersion : Nat
  type : Option CStr
  maxVcpus : Int
  nodeFreeMemory : Nat
  isEncrypted : Int
  isSecure : Int
  numOfStoragePools : Int
  listStoragePools : Option (List CStr)
  listAllStoragePools : Int → Option (List Handle)
  storagePoolGetName : Handle → Option CStr
  numOfNetworks : Int
  listNetworks : Option (List CStr)
  nodeInfo : NodeInfo
  securityModel : Int
  secmodModel : CStr
  secmodDoi : CStr
  numOfDomains : Int
  numOfDefinedDomains : Int
  listAllDomains : Option (List Handle)
  domainGetName : Handle → Option CStr
  domainIsActive : Handle → Int
  domainLookupByName : CStr → Option Handle
  domainGetInfo : Handle → Option DomainInfo
  domainGetMaxVcpus : Handle → Int
  domainGetAutostart : Handle → Option Int
  domainGetOSType : Handle → Option CStr
  domainGetXMLDesc : Handle → Option CStr
  lastErrorMessage : Option CStr

/-- The outcome of a function or of the whole program: the value returned
(for `main`, also the status passed to `exit` by `errx`) and what happened. -/
structure Run where
  ret : Int
  trace : List Event

/-- The lines printed for the names of a name-only listing
(`printf("\t%s\n", names[i])` for each `i`). -/
def printNames : List CStr → List Event
  | [] => []
  | n :: rest => Event.stdout "\t%s\n" [Arg.str (some n)] :: printNames rest

/-- The domain loop of both `main`s: print name and activity of each
`domList[i]`, then `virDomainFree(domList[i])`. -/
def domainLoop (hv : Hypervisor) : List Handle → List Event
  | [] => []
  | d :: rest =>
    Event.stdout "\t%8s: %s\n"
      [Arg.str (hv.domainGetName d),
       Arg.lit (if hv.domainIsActive d = 1 then "Active" else "Non-active")] ::
    Event.domainFree d :: domainLoop hv rest

/-- The storage pool loop of `storage` (virtest.c) and `main` (libvirt.c):
print the name of each `pools[i]`, then `virStoragePoolFree(pools[i])`. -/
def poolLoop (hv : Hypervisor) : List Handle → List Event
  | [] => []
  | p :: rest =>
    Event.stdout "\t%s\n" [Arg.str (hv.storagePoolGetName p)] ::
    Event.storagePoolFree p :: poolLoop hv rest

/-! ## `virtest.c` -/

namespace Virtest

/-- The function `ktog(float kb)`: `kb / 1024.0 / 1024.0`.  The parameter is a
`float`, so a caller's integer argument arrives as `toFloat` of it; the two
divisions by a power of two are exact, in `double` and back in `float`. -/
def ktog (kb : Rat) : Rat := kb / 1024 / 1024

/-- The function `dom_info(conn, dom_name)`. -/
def dom_info (hv : Hypervisor) (dom_name : CStr) : Run :=
  match hv.domainLookupByName dom_name with
  | none =>
    ⟨-1, [Event.domainLookupByName dom_name,
          Event.stderr "Domain %s not found\n" [Arg.str (some dom_name)]]⟩
  | some dom =>
    match hv.domainGetInfo dom with
    | none =>
      ⟨-1, [Event.domainLookupByName dom_name,
            Event.stderr "Could not get info: %s\n" [Arg.str hv.lastErrorMessage]]⟩
    | some dinfo =>
      ⟨0, [Event.domainLookupByName dom_name,
           Event.stdout "Domain %s Info:\n" [Arg.str (some dom_name)],
           Event.stdout "\tMax vCPUs: %d\n" [Arg.int (hv.domainGetMaxVcpus dom)],
           Event.stdout "\tIs running: %s\n"
             [Arg.lit (if dinfo.state = VIR_DOMAIN_RUNNING then "yes" else "no")],
           Event.stdout "\tMax Memory Allowed: %.2fG\n"
             [Arg.real (ktog (toFloat dinfo.maxMem))],
           Event.stdout "\tUsed memory: %.2fG\n"
             [Arg.real (ktog (toFloat dinfo.memory))],
           Event.stdout "\tNumber of virtual CPUs: %d\n" [Arg.nat dinfo.nrVirtCpu],
           Event.stdout "\tCPU time (nanoseconds): %lld\n" [Arg.nat dinfo.cpuTime]]
          ++ (match hv.domainGetAutostart dom with
              | some autostart =>
                [Event.stdout "\tAutostart: %s\n"
                  [Arg.lit (if autostart ≠ 0 then "yes" else "no")]]
              | none => [])
          ++ (match hv.domainGetOSType dom with
              | some os_dom => [Event.stdout "\tOS type: %s\n" [Arg.str (some os_dom)]]
              | none => [])
          ++ (match hv.domainGetXMLDesc dom with
              | some xmldesc =>
                [Event.stdout "Domain XML Description:\n%s\n" [Arg.str (some xmldesc)]]
              | none => [])⟩

/-- The function `storage(conn)`. -/
def storage (hv : Hypervisor) : List Event :=
  let nstorage := hv.numOfStoragePools
  Event.stdout "Number of Storage Pools: %d\n" [Arg.int nstorage] ::
  (if nstorage > 0 then
    (match hv.listStoragePools with
     | some npools =>
       if (npools.length : Int) = nstorage then
         Event.stdout "Storage pools by name:\n" [] :: printNames npools
       else []
     | none => [])
    ++
    (match hv.listAllStoragePools nstorage with
     | some pools =>
       let ret : Int := pools.length
       if ret > 1 then Event.stdout "Storage names:\n" [] :: poolLoop hv pools
       else []
     | none => [])
  else [])

/-- The function `networks(conn)`. -/
def networks (hv : Hypervisor) : List Event :=
  let nets := hv.numOfNetworks
  Event.stdout "Networks: %d\n" [Arg.int nets] ::
  (if nets > 0 then
    (match hv.listNetworks with
     | some net_list =>
       if (net_list.length : Int) = nets then
         Event.stdout "Networks by name:\n" [] :: printNames net_list
       else []
     | none => [])
  else [])

/-- Lines 193 to 237 of `main`, from the capabilities to the domain counts:
the value left in `ret` (the answer of `virConnectGetMaxVcpus`) and what is
printed and released. -/
def report (hv : Hypervisor) : Run :=
  let ret := hv.maxVcpus
  ⟨ret,
    [Event.stdout "Capabilities: %s\n" [Arg.str hv.capabilities],
     Event.stdout "Connected at %s\n" [Arg.str hv.uri],
     Event.stdout "Hostname: %s\n" [Arg.str hv.hostname],
     Event.stdout "Virtualizaton Type: %s\n" [Arg.str hv.type],
     Event.stdout "Driver Version: %lu\n" [Arg.nat hv.version],
     Event.stdout "LibVirt Version: %lu\n" [Arg.nat hv.libVersion]]
    ++ (if ret ≠ -1 then [Event.stdout "Max vCPUS: %d\n" [Arg.int ret]] else [])
    ++ [Event.stdout "Node Free Memory: %.2fG\n"
          [Arg.real (ktog (toFloat hv.nodeFreeMemory) / 1024)],
        Event.stdout "Connention is encrypted: %d\n" [Arg.int hv.isEncrypted],
        Event.stdout "Connention is secure: %d\n" [Arg.int hv.isSecure]]
    ++ storage hv
    ++ networks hv
    ++ [Event.stdout "Node Info:\n" [],
        Event.stdout "\tModel: %s\n" [Arg.str (some hv.nodeInfo.model)],
        Event.stdout "\tMemory: %.2fG\n" [Arg.real (ktog (toFloat hv.nodeInfo.memory))],
        Event.stdout "\tCPUs: %d\n" [Arg.nat hv.nodeInfo.cpus]]
    ++ (if hv.securityModel ≠ -1 then
          [Event.stdout "\tSecurity Model: %s\n" [Arg.str (some hv.secmodModel)],
           Event.stdout "\tSecurity DOI: %s\n" [Arg.str (some hv.secmodDoi)]]
        else [])
    ++ [Event.stdout "\tActive Domains: %d\n" [Arg.int hv.numOfDomains],
        Event.stdout "\tInactive Domains: %d\n" [Arg.int hv.numOfDefinedDomains]]⟩

/-- The function `main(argc, argv)`, with `argc = argv.length`; `argv[argc]`
is NULL.  `report` stands for lines 193 to 237; the label `out` is the final
`virConnectClose` and `return ret`. -/
def main (hv : Hypervisor) (argv : List CStr) : Run :=
  let argc := argv.length
  if argc < 3 then
    ⟨EXIT_FAILURE, [Event.stderr "Usage: libvirt <user> <passwd> <uri>" []]⟩
  else
  let opened := [Event.connectOpenAuth argv[3]? (argv.getD 1 []) (argv.getD 2 [])]
  if hv.connectOpenAuth argv[3]? = false then
    ⟨EXIT_FAILURE, opened ++ [Event.stderr "Failed to connect to hypervisor" []]⟩
  else
  let ret := (report hv).ret
  match hv.listAllDomains with
  | none =>
    ⟨ret, opened ++ (report hv).trace
      ++ [Event.stdout "Failed to get All domains: %s\n" [Arg.str hv.lastErrorMessage]]
      ++ [Event.connectClose]⟩
  | some domList =>
    let numNames : Int := domList.length
    let listed := opened ++ (report hv).trace ++
      (if numNames > 0 then Event.stdout "Domains:\n" [] :: domainLoop hv domList
       else [])
    if argc = 5 then
      let r := dom_info hv (argv.getD 4 [])
      ⟨r.ret, listed ++ r.trace ++ [Event.connectClose]⟩
    else
      ⟨ret, listed ++ [Event.connectClose]⟩

end Virtest

/-! ## `libvirt.c` -/

namespace Libvirt

/-- The function `ktog(int kb)`: `(float)(kb) / 1024.0 / 1024.0`.  The
parameter is an `int`, so a caller's `unsigned long` argument arrives as
`toInt` of it; the divisions by a power of two are exact. -/
def ktog (kb : Int) : Rat := (toFloat kb : Rat) / 1024 / 1024

/-- The function `node_info(conn, node_name)`. -/
def node_info (hv : Hypervisor) (node_name : CStr) : Run :=
  match hv.domainLookupByName node_name with
  | none =>
    ⟨-1, [Event.domainLookupByName node_name,
          Event.stderr "Domain %s not found\n" [Arg.str (some node_name)]]⟩
  | some dom =>
    match hv.domainGetInfo dom with
    | none =>
      ⟨-1, [Event.domainLookupByName node_name,
            Event.stderr "Could not get info: %s\n" [Arg.str hv.lastErrorMessage]]⟩
    | some dinfo =>
      ⟨0, [Event.domainLookupByName node_name,
           Event.stdout "Domain %s Info:\n" [Arg.str (some node_name)],
           Event.stdout "\tIs running: %s\n"
             [Arg.lit (if dinfo.state = VIR_DOMAIN_RUNNING then "yes" else "no")],
           Event.stdout "\tMax Memory Allowed: %.2fG\n"
             [Arg.real (ktog (toInt dinfo.maxMem))],
           Event.stdout "\tUsed memory: %.2fG\n"
             [Arg.real (ktog (toInt dinfo.memory))],
           Event.stdout "\tNumber of virtual CPUs: %d\n" [Arg.nat dinfo.nrVirtCpu],
           Event.stdout "\tCPU time (nanoseconds): %lld\n" [Arg.nat dinfo.cpuTime]]
          ++ (match hv.domainGetAutostart dom with
              | some autostart =>
                [Event.stdout "\tAutostart: %s\n"
                  [Arg.lit (if autostart ≠ 0 then "yes" else "no")]]
              | none => [])
          ++ (match hv.domainGetOSType dom with
              | some os_dom => [Event.stdout "\tOS type: %s\n" [Arg.str (some os_dom)]]
              | none => [])⟩

/-- The storage pool section of `main` (lines 156 to 169): the value left in
`ret` and what is printed and released.  `goto out` only leaves the section:
the label `out` sits right after it, before the node report. -/
def storageSection (hv : Hypervisor) : Run :=
  let nstorage := hv.numOfStoragePools
  let shown := [Event.stdout "Number of Storage Pools: %d\n" [Arg.int nstorage]]
  if nstorage > 0 then
    match hv.listAllStoragePools nstorage with
    | none => ⟨-1, shown⟩
    | some pools =>
      let ret : Int := pools.length
      if ret < 1 then ⟨ret, shown⟩
      else ⟨ret, shown ++ Event.stdout "Storage names:\n" [] :: poolLoop hv pools⟩
  else ⟨0, shown⟩

/-- Lines 133 to 186 of `main`, from the capabilities to the domain counts:
the value left in `ret` (by the storage pool section) and what is printed and
released. -/
def report (hv : Hypervisor) : Run :=
  let pools := storageSection hv
  ⟨pools.ret,
    [Event.stdout "Capabilities: %s\n" [Arg.str hv.capabilities],
     Event.stdout "Connected at %s\n" [Arg.str hv.uri],
     Event.stdout "Hostname: %s\n" [Arg.str hv.hostname],
     Event.stdout "Virtualizaton Type: %s\n" [Arg.str hv.type],
     Event.stdout "Driver Version: %lu\n" [Arg.nat hv.version],
     Event.stdout "LibVirt Version: %lu\n" [Arg.nat hv.libVersion],
     Event.stdout "Max vCPUS: %d\n" [Arg.int hv.maxVcpus],
     Event.stdout "Node Free Memory: %llu\n" [Arg.nat hv.nodeFreeMemory],
     Event.stdout "Connention is encrypted: %d\n" [Arg.int hv.isEncrypted],
     Event.stdout "Connention is secure: %d\n" [Arg.int hv.isSecure]]
    ++ pools.trace
    ++ [Event.stdout "Node Info:\n" [],
        Event.stdout "\tModel: %s\n" [Arg.str (some hv.nodeInfo.model)],
        Event.stdout "\tMemory: %.2fG\n" [Arg.real (ktog (toInt hv.nodeInfo.memory))],
        Event.stdout "\tCPUs: %d\n" [Arg.nat hv.nodeInfo.cpus],
        Event.stdout "\tSecurity Model: %s\n" [Arg.str (some hv.secmodModel)],
        Event.stdout "\tSecurity DOI: %s\n" [Arg.str (some hv.secmodDoi)],
        Event.stdout "\tActive Domains: %d\n" [Arg.int hv.numOfDomains],
        Event.stdout "\tInactive Domains: %d\n" [Arg.int hv.numOfDefinedDomains]]⟩

/-- The function `main(argc, argv)`, with `argc = argv.length`; `argv[argc]`
is NULL.  `report` stands for lines 133 to 186.  When the domain listing
fails, `main` returns 1 at once. -/
def main (hv : Hypervisor) (argv : List CStr) : Run :=
  let argc := argv.length
  if argc < 3 then
    ⟨EXIT_FAILURE, [Event.stderr "Usage: libvirt <user> <passwd> <uri>" []]⟩
  else
  let opened := [Event.connectOpenAuth argv[3]? (argv.getD 1 []) (argv.getD 2 [])]
  if hv.connectOpenAuth argv[3]? = false then
    ⟨EXIT_FAILURE, opened ++ [Event.stderr "Failed to connect to qemu" []]⟩
  else
  let ret := (report hv).ret
  match hv.listAllDomains with
  | none =>
    ⟨1, opened ++ (report hv).trace
      ++ [Event.stdout "Failed to get All domains: %s\n" [Arg.str hv.lastErrorMessage]]⟩
  | some domList =>
    let numNames : Int := domList.length
    let listed := opened ++ (report hv).trace ++
      (if numNames > 0 then Event.stdout "Domains:\n" [] :: domainLoop hv domList
       else [])
    if argc = 5 then
      let r := node_info hv (argv.getD 4 [])
      ⟨r.ret, listed ++ r.trace ++ [Event.connectClose]⟩
    else
      ⟨ret, listed ++ [Event.connectClose]⟩

end Libvirt

/-! ## Sample hosts -/

/-- A host with no storage pools, no networks and no domains, on which every
call made for the inventory succeeds. -/
def quietHost : Hypervisor where
  connectOpenAuth := fun _ => true
  capabilities := some [60, 47, 62]
  uri := some [116, 101, 115, 116]
  hostname := some [104]
  version := 9000000
  libVersion := 9000000
  type := some [81, 69, 77, 85]
  maxVcpus := 16
  nodeFreeMemory := 4294967296
  isEncrypted := 0
  isSecure := 1
  numOfStoragePools := 0
  listStoragePools := some []
  listAllStoragePools := fun _ => some []
  storagePoolGetName := fun _ => none
  numOfNetworks := 0
  listNetworks := some []
  nodeInfo := ⟨[120, 56, 54], 8388608, 4⟩
  securityModel := 0
  secmodModel := [110, 111, 110, 101]
  secmodDoi := [48]
  numOfDomains := 0
  numOfDefinedDomains := 0
  listAllDomains := some []
  domainGetName := fun _ => none
  domainIsActive := fun _ => 0
  domainLookupByName := fun _ => none
  domainGetInfo := fun _ => none
  domainGetMaxVcpus := fun _ => -1
  domainGetAutostart := fun _ => none
  domainGetOSType := fun _ => none
  domainGetXMLDesc := fun _ => none
  lastErrorMessage := none

/-- The quiet host with exactly one storage pool, handle 41, named `p`. -/
def onePoolHost : Hypervisor :=
  { quietHost with
    numOfStoragePools := 1
    listStoragePools := some [[112]]
    listAllStoragePools := fun _ => some [41]
    storagePoolGetName := fun _ => some [112] }

/-- The quiet host on which `virConnectListAllDomains` fails. -/
def noListHost : Hypervisor :=
  { quietHost with
    listAllDomains := none
    lastErrorMessage := some [101, 114, 114] }

/-- The quiet host with one running domain, handle 7, named `vm`, whose
maximum memory is `2^31` KB (2 TiB) and whose used memory is `2^21` KB. -/
def vmHost : Hypervisor :=
  { quietHost with
    numOfDomains := 1
    listAllDomains := some [7]
    domainGetName := fun _ => some [118, 109]
    domainIsActive := fun _ => 1
    domainLookupByName := fun name => if name = [118, 109] then some 7 else none
    domainGetInfo := fun _ => some ⟨1, 2147483648, 2097152, 2, 1000⟩
    domainGetMaxVcpus := fun _ => 16
    domainGetAutostart := fun _ => some 0
    domainGetOSType := fun _ => some [104, 118, 109]
    domainGetXMLDesc := fun _ => some [60, 47, 62] }

/-- The host `vmHost` on which `virDomainGetInfo` fails. -/
def vmNoInfoHost : Hypervisor :=
  { vmHost with
    domainGetInfo := fun _ => none }

/-! ## The credential callback -/

theorem authCb_cons_name_empty (c : Credential) (rest : List Credential) (vcred : Cred)
    (h1 : c.type = VIR_CRED_USERNAME ∨ c.type = VIR_CRED_AUTHNAME)
    (h2 : strlen vcred.username = 0) :
    authCb (c :: rest) vcred = ⟨-1, c :: rest, [Event.stdout "invalid user\n" []]⟩ := by
  simp [authCb, h1, h2]

theorem authCb_cons_name (c : Credential) (rest : List Credential) (vcred : Cred)
    (h1 : c.type = VIR_CRED_USERNAME ∨ c.type = VIR_CRED_AUTHNAME)
    (h2 : strlen vcred.username ≠ 0) :
    authCb (c :: rest) vcred =
      ⟨(authCb rest vcred).ret,
        { c with result := some (strdup vcred.username),
                 resultlen := strlen vcred.username % 2 ^ 32 } :: (authCb rest vcred).cred,
        (authCb rest vcred).trace⟩ := by
  simp [authCb, h1, h2]

theorem authCb_cons_pass_empty (c : Credential) (rest : List Credential) (vcred : Cred)
    (h1 : ¬ (c.type = VIR_CRED_USERNAME ∨ c.type = VIR_CRED_AUTHNAME))
    (h2 : c.type = VIR_CRED_PASSPHRASE) (h3 : strlen vcred.passwd = 0) :
    authCb (c :: rest) vcred = ⟨-1, c :: rest, [Event.stdout "invalid pass\n" []]⟩ := by
  simp only [authCb, if_neg h1, if_pos h2, if_pos h3]

theorem authCb_cons_pass (c : Credential) (rest : List Credential) (vcred : Cred)
    (h1 : ¬ (c.type = VIR_CRED_USERNAME ∨ c.type = VIR_CRED_AUTHNAME))
    (h2 : c.type = VIR_CRED_PASSPHRASE) (h3 : strlen vcred.passwd ≠ 0) :
    authCb (c :: rest) vcred =
      ⟨(authCb rest vcred).ret,
        { c with result := some (strdup vcred.passwd),
                 resultlen := strlen vcred.passwd % 2 ^ 32 } :: (authCb rest vcred).cred,
        (authCb rest vcred).trace⟩ := by
  simp only [authCb, if_neg h1, if_pos h2, if_neg h3]

theorem authCb_cons_other (c : Credential) (rest : List Credential) (vcred : Cred)
    (h1 : ¬ (c.type = VIR_CRED_USERNAME ∨ c.type = VIR_CRED_AUTHNAME))
    (h2 : c.type ≠ VIR_CRED_PASSPHRASE) :
    authCb (c :: rest) vcred =
      ⟨(authCb rest vcred).ret, c :: (authCb rest vcred).cred,
        Event.stdout "Cred type not found: %d\n" [Arg.int c.type] ::
          (authCb rest vcred).trace⟩ := by
  simp [authCb, h1, h2]

theorem authCb_cred_length (cred : List Credential) (vcred : Cred) :
    (authCb cred vcred).cred.length = cred.length := by
  induction cred with
  | nil => simp [authCb]
  | cons c rest ih =>
    by_cases h1 : c.type = VIR_CRED_USERNAME ∨ c.type = VIR_CRED_AUTHNAME
    · by_cases h2 : strlen vcred.username = 0
      · simp [authCb_cons_name_empty c rest vcred h1 h2]
      · simp [authCb_cons_name c rest vcred h1 h2, ih]
    · by_cases h3 : c.type = VIR_CRED_PASSPHRASE
      · by_cases h4 : strlen vcred.passwd = 0
        · simp [authCb_cons_pass_empty c rest vcred h1 h3 h4]
        · simp [authCb_cons_pass c rest vcred h1 h3 h4, ih]
      · simp [authCb_cons_other c rest vcred h1 h3, ih]

theorem authCb_ret_of_nonempty (cred : List Credential) (vcred : Cred)
    (hu : vcred.username ≠ []) (hp : vcred.passwd ≠ []) :
    (authCb cred vcred).ret = 0 := by
  have hu0 : strlen vcred.username ≠ 0 := by simpa [strlen] using hu
  have hp0 : strlen vcred.passwd ≠ 0 := by simpa [strlen] using hp
  induction cred with
  | nil => simp [authCb]
  | cons c rest ih =>
    by_cases h1 : c.type = VIR_CRED_USERNAME ∨ c.type = VIR_CRED_AUTHNAME
    · simp [authCb_cons_name c rest vcred h1 hu0, ih]
    · by_cases h3 : c.type = VIR_CRED_PASSPHRASE
      · simp [authCb_cons_pass c rest vcred h1 h3 hp0, ih]
      · simp [authCb_cons_other c rest vcred h1 h3, ih]

theorem authCb_ret_of_empty_username (cred : List Credential) (vcred : Cred)
    (hu : vcred.username = [])
    (hc : ∃ c ∈ cred, c.type = VIR_CRED_USERNAME ∨ c.type = VIR_CRED_AUTHNAME) :
    (authCb cred vcred).ret = -1 := by
  have hu0 : strlen vcred.username = 0 := by simp [strlen, hu]
  induction cred with
  | nil => simp at hc
  | cons c rest ih =>
    by_cases h1 : c.type = VIR_CRED_USERNAME ∨ c.type = VIR_CRED_AUTHNAME
    · simp [authCb_cons_name_empty c rest vcred h1 hu0]
    · have hrest : ∃ c ∈ rest, c.type = VIR_CRED_USERNAME ∨ c.type = VIR_CRED_AUTHNAME := by
        obtain ⟨d, hd, hdt⟩ := hc
        rcases List.mem_cons.mp hd with rfl | hd
        · exact absurd hdt h1
        · exact ⟨d, hd, hdt⟩
      by_cases h3 : c.type = VIR_CRED_PASSPHRASE
      · by_cases h4 : strlen vcred.passwd = 0
        · simp [authCb_cons_pass_empty c rest vcred h1 h3 h4]
        · simp [authCb_cons_pass c rest vcred h1 h3 h4, ih hrest]
      · simp [authCb_cons_other c rest vcred h1 h3, ih hrest]

theorem authCb_ret_of_empty_passwd (cred : List Credential) (vcred : Cred)
    (hp : vcred.passwd = [])
    (hc : ∃ c ∈ cred, c.type = VIR_CRED_PASSPHRASE) :
    (authCb cred vcred).ret = -1 := by
  have hp0 : strlen vcred.passwd = 0 := by simp [strlen, hp]
  induction cred with
  | nil => simp at hc
  | cons c rest ih =>
    by_cases h1 : c.type = VIR_CRED_USERNAME ∨ c.type = VIR_CRED_AUTHNAME
    · have hne : c.type ≠ VIR_CRED_PASSPHRASE := by
        rcases h1 with h | h <;> rw [h] <;> decide
      have hrest : ∃ c ∈ rest, c.type = VIR_CRED_PASSPHRASE := by
        obtain ⟨d, hd, hdt⟩ := hc
        rcases List.mem_cons.mp hd with rfl | hd
        · exact absurd hdt hne
        · exact ⟨d, hd, hdt⟩
      by_cases h2 : strlen vcred.username = 0
      · simp [authCb_cons_name_empty c rest vcred h1 h2]
      · simp [authCb_cons_name c rest vcred h1 h2, ih hrest]
    · by_cases h3 : c.type = VIR_CRED_PASSPHRASE
      · simp [authCb_cons_pass_empty c rest vcred h1 h3 hp0]
      · have hrest : ∃ c ∈ rest, c.type = VIR_CRED_PASSPHRASE := by
          obtain ⟨d, hd, hdt⟩ := hc
          rcases List.mem_cons.mp hd with rfl | hd
          · exact absurd hdt h3
          · exact ⟨d, hd, hdt⟩
        simp [authCb_cons_other c rest vcred h1 h3, ih hrest]

theorem authCb_store_nonempty (cred : List Credential) (vcred : Cred)
    (hu : strlen vcred.username < 2 ^ 32) (hp : strlen vcred.passwd < 2 ^ 32) (i : Nat) :
    (authCb cred vcred).cred[i]? = cred[i]? ∨
      ∃ c s, (authCb cred vcred).cred[i]? = some c ∧ c.result = some s ∧ s ≠ [] ∧
        c.resultlen ≠ 0 := by
  induction cred generalizing i with
  | nil => simp [authCb]
  | cons c rest ih =>
    by_cases h1 : c.type = VIR_CRED_USERNAME ∨ c.type = VIR_CRED_AUTHNAME
    · by_cases h2 : strlen vcred.username = 0
      · simp [authCb_cons_name_empty c rest vcred h1 h2]
      · rw [authCb_cons_name c rest vcred h1 h2]
        cases i with
        | zero =>
          right
          refine ⟨⟨c.type, some (strdup vcred.username), strlen vcred.username % 2 ^ 32⟩,
            vcred.username, by simp, rfl, ?_, ?_⟩
          · intro h; exact h2 (by simp [strlen, h])
          · show strlen vcred.username % 2 ^ 32 ≠ 0
            rw [Nat.mod_eq_of_lt hu]; exact h2
        | succ j => simpa using ih j
    · by_cases h3 : c.type = VIR_CRED_PASSPHRASE
      · by_cases h4 : strlen vcred.passwd = 0
        · simp [authCb_cons_pass_empty c rest vcred h1 h3 h4]
        · rw [authCb_cons_pass c rest vcred h1 h3 h4]
          cases i with
          | zero =>
            right
            refine ⟨⟨c.type, some (strdup vcred.passwd), strlen vcred.passwd % 2 ^ 32⟩,
              vcred.passwd, by simp, rfl, ?_, ?_⟩
            · intro h; exact h4 (by simp [strlen, h])
            · show strlen vcred.passwd % 2 ^ 32 ≠ 0
              rw [Nat.mod_eq_of_lt hp]; exact h4
          | succ j => simpa using ih j
      · rw [authCb_cons_other c rest vcred h1 h3]
        cases i with
        | zero => simp
        | succ j => simpa using ih j

theorem authCb_entry_of_nonempty (cred : List Credential) (vcred : Cred)
    (hu0 : strlen vcred.username ≠ 0) (hp0 : strlen vcred.passwd ≠ 0)
    (i : Nat) (c : Credential) (hc : cred[i]? = some c) :
    (authCb cred vcred).cred[i]? = some
      (if c.type = VIR_CRED_USERNAME ∨ c.type = VIR_CRED_AUTHNAME then
        ⟨c.type, some vcred.username, strlen vcred.username % 2 ^ 32⟩
      else if c.type = VIR_CRED_PASSPHRASE then
        ⟨c.type, some vcred.passwd, strlen vcred.passwd % 2 ^ 32⟩
      else c) := by
  induction cred generalizing i with
  | nil => simp at hc
  | cons d rest ih =>
    by_cases h1 : d.type = VIR_CRED_USERNAME ∨ d.type = VIR_CRED_AUTHNAME
    · rw [authCb_cons_name d rest vcred h1 hu0]
      cases i with
      | zero =>
        have hdc : d = c := by simpa using hc
        subst hdc
        simp [h1, strdup]
      | succ j => simpa using ih j (by simpa using hc)
    · by_cases h3 : d.type = VIR_CRED_PASSPHRASE
      · rw [authCb_cons_pass d rest vcred h1 h3 hp0]
        cases i with
        | zero =>
          have hdc : d = c := by simpa using hc
          subst hdc
          simp only [List.getElem?_cons_zero, if_neg h1, if_pos h3, strdup]
        | succ j => simpa using ih j (by simpa using hc)
      · rw [authCb_cons_other d rest vcred h1 h3]
        cases i with
        | zero =>
          have hdc : d = c := by simpa using hc
          subst hdc
          simp only [List.getElem?_cons_zero, if_neg h1, if_neg h3]
        | succ j => simpa using ih j (by simpa using hc)

/-- C1: whenever the configured username is empty and a USERNAME or AUTHNAME
kind is requested, or the configured password is empty and a PASSPHRASE kind
is requested, `authCb` returns -1; and every entry of the credential array is
after the call either as it was before or holds a non-empty result with a
non-zero `resultlen`.  The configured strings are command-line arguments,
shorter than `2^32` bytes. -/
theorem authCb_empty_credential_fails (cred : List Credential) (vcred : Cred)
    (hu : strlen vcred.username < 2 ^ 32) (hp : strlen vcred.passwd < 2 ^ 32) :
    ((vcred.username = [] ∧
        (∃ c ∈ cred, c.type = VIR_CRED_USERNAME ∨ c.type = VIR_CRED_AUTHNAME)) ∨
      (vcred.passwd = [] ∧ (∃ c ∈ cred, c.type = VIR_CRED_PASSPHRASE)) →
      (authCb cred vcred).ret = -1) ∧
    (authCb cred vcred).cred.length = cred.length ∧
    ∀ i : Nat, (authCb cred vcred).cred[i]? = cred[i]? ∨
      ∃ c s, (authCb cred vcred).cred[i]? = some c ∧ c.result = some s ∧ s ≠ [] ∧
        c.resultlen ≠ 0 := by
  refine ⟨?_, authCb_cred_length cred vcred, authCb_store_nonempty cred vcred hu hp⟩
  rintro (⟨h, hc⟩ | ⟨h, hc⟩)
  · exact authCb_ret_of_empty_username cred vcred h hc
  · exact authCb_ret_of_empty_passwd cred vcred h hc

/-- The callback on `root` with an empty password, asked for an unknown kind,
the authentication name and the passphrase. -/
theorem authCb_empty_credential_fails_witness :
    strlen [114, 111, 111, 116] < 2 ^ 32 ∧ strlen [] < 2 ^ 32 ∧
    (authCb [⟨9, none, 0⟩, ⟨VIR_CRED_AUTHNAME, none, 0⟩, ⟨VIR_CRED_PASSPHRASE, none, 0⟩]
        ⟨[114, 111, 111, 116], []⟩).ret = -1 ∧
    (authCb [⟨9, none, 0⟩, ⟨VIR_CRED_AUTHNAME, none, 0⟩, ⟨VIR_CRED_PASSPHRASE, none, 0⟩]
        ⟨[114, 111, 111, 116], []⟩).cred
      = [⟨9, none, 0⟩, ⟨VIR_CRED_AUTHNAME, some [114, 111, 111, 116], 4⟩,
          ⟨VIR_CRED_PASSPHRASE, none, 0⟩] :=
  ⟨by decide, by decide,
    (authCb_empty_credential_fails
      [⟨9, none, 0⟩, ⟨VIR_CRED_AUTHNAME, none, 0⟩, ⟨VIR_CRED_PASSPHRASE, none, 0⟩]
      ⟨[114, 111, 111, 116], []⟩ (by decide) (by decide)).1
      (Or.inr ⟨rfl, ⟨VIR_CRED_PASSPHRASE, none, 0⟩, by decide, rfl⟩),
    by decide⟩

/-- C2: with a non-empty configured username and password (command-line
arguments, shorter than `2^32` bytes), `authCb` returns 0 for every list of
requests, and entry by entry: a USERNAME or AUTHNAME entry holds a copy of the
username and its length, a PASSPHRASE entry a copy of the password and its
length, and an entry of any other kind is unchanged. -/
theorem authCb_supplies_configured_pair (cred : List Credential) (vcred : Cred)
    (hu : vcred.username ≠ []) (hp : vcred.passwd ≠ [])
    (hul : strlen vcred.username < 2 ^ 32) (hpl : strlen vcred.passwd < 2 ^ 32) :
    (authCb cred vcred).ret = 0 ∧
    (authCb cred vcred).cred.length = cred.length ∧
    ∀ (i : Nat) (c : Credential), cred[i]? = some c →
      ∃ o, (authCb cred vcred).cred[i]? = some o ∧ o.type = c.type ∧
        (c.type = VIR_CRED_USERNAME ∨ c.type = VIR_CRED_AUTHNAME →
          o.result = some vcred.username ∧ o.resultlen = strlen vcred.username) ∧
        (c.type = VIR_CRED_PASSPHRASE →
          o.result = some vcred.passwd ∧ o.resultlen = strlen vcred.passwd) ∧
        (¬ (c.type = VIR_CRED_USERNAME ∨ c.type = VIR_CRED_AUTHNAME) →
          c.type ≠ VIR_CRED_PASSPHRASE → o = c) := by
  have hu0 : strlen vcred.username ≠ 0 := by simpa [strlen] using hu
  have hp0 : strlen vcred.passwd ≠ 0 := by simpa [strlen] using hp
  refine ⟨authCb_ret_of_nonempty cred vcred hu hp, authCb_cred_length cred vcred, ?_⟩
  intro i c hc
  refine ⟨_, authCb_entry_of_nonempty cred vcred hu0 hp0 i c hc, ?_, ?_, ?_, ?_⟩
  · split_ifs <;> rfl
  · intro h
    rw [if_pos h]
    exact ⟨rfl, Nat.mod_eq_of_lt hul⟩
  · intro h
    have h1 : ¬ (c.type = VIR_CRED_USERNAME ∨ c.type = VIR_CRED_AUTHNAME) := by
      rw [h]; decide
    rw [if_neg h1, if_pos h]
    exact ⟨rfl, Nat.mod_eq_of_lt hpl⟩
  · intro h1 h3
    rw [if_neg h1, if_neg h3]

/-- The callback on `root` with password `xy`, asked for the authentication
name, the passphrase and an unknown kind. -/
theorem authCb_supplies_configured_pair_witness :
    ([114, 111, 111, 116] : CStr) ≠ [] ∧ ([120, 121] : CStr) ≠ [] ∧
    strlen [114, 111, 111, 116] < 2 ^ 32 ∧ strlen [120, 121] < 2 ^ 32 ∧
    (authCb [⟨VIR_CRED_AUTHNAME, none, 0⟩, ⟨VIR_CRED_PASSPHRASE, none, 0⟩, ⟨9, none, 7⟩]
        ⟨[114, 111, 111, 116], [120, 121]⟩).ret = 0 ∧
    (authCb [⟨VIR_CRED_AUTHNAME, none, 0⟩, ⟨VIR_CRED_PASSPHRASE, none, 0⟩, ⟨9, none, 7⟩]
        ⟨[114, 111, 111, 116], [120, 121]⟩).cred
      = [⟨VIR_CRED_AUTHNAME, some [114, 111, 111, 116], 4⟩,
          ⟨VIR_CRED_PASSPHRASE, some [120, 121], 2⟩, ⟨9, none, 7⟩] :=
  ⟨by decide, by decide, by decide, by decide,
    (authCb_supplies_configured_pair
      [⟨VIR_CRED_AUTHNAME, none, 0⟩, ⟨VIR_CRED_PASSPHRASE, none, 0⟩, ⟨9, none, 7⟩]
      ⟨[114, 111, 111, 116], [120, 121]⟩ (by decide) (by decide) (by decide) (by decide)).1,
    by decide⟩

/-! ## Traces of the report sections -/

theorem poolsFreed_append (a b : List Event) :
    poolsFreed (a ++ b) = poolsFreed a ++ poolsFreed b := by
  induction a with
  | nil => rfl
  | cons e t ih => cases e <;> simp [poolsFreed, ih]

theorem domainsFreed_append (a b : List Event) :
    domainsFreed (a ++ b) = domainsFreed a ++ domainsFreed b := by
  induction a with
  | nil => rfl
  | cons e t ih => cases e <;> simp [domainsFreed, ih]

theorem poolsFreed_poolLoop (hv : Hypervisor) (pools : List Handle) :
    poolsFreed (poolLoop hv pools) = pools := by
  induction pools with
  | nil => rfl
  | cons p rest ih => simp [poolLoop, poolsFreed, ih]

theorem domainsFreed_domainLoop (hv : Hypervisor) (domList : List Handle) :
    domainsFreed (domainLoop hv domList) = domList := by
  induction domList with
  | nil => rfl
  | cons d rest ih => simp [domainLoop, domainsFreed, ih]

theorem printNames_inventory (names : List CStr) :
    ∀ e ∈ printNames names, e.isInventory = true := by
  induction names with
  | nil => simp [printNames]
  | cons n rest ih => simpa [printNames, Event.isInventory] using ih

theorem poolLoop_inventory (hv : Hypervisor) (pools : List Handle) :
    ∀ e ∈ poolLoop hv pools, e.isInventory = true := by
  induction pools with
  | nil => simp [poolLoop]
  | cons p rest ih => simpa [poolLoop, Event.isInventory] using ih

theorem domainLoop_inventory (hv : Hypervisor) (domList : List Handle) :
    ∀ e ∈ domainLoop hv domList, e.isInventory = true := by
  induction domList with
  | nil => simp [domainLoop]
  | cons d rest ih => simpa [domainLoop, Event.isInventory] using ih

theorem virtest_storage_inventory (hv : Hypervisor) :
    ∀ e ∈ Virtest.storage hv, e.isInventory = true := by
  intro e he
  unfold Virtest.storage at he
  simp only [List.mem_cons, List.mem_append] at he
  rcases he with rfl | he
  · rfl
  · split at he
    · rcases List.mem_append.mp he with he | he
      · split at he
        · split at he
          · rcases List.mem_cons.mp he with rfl | he
            · rfl
            · exact printNames_inventory _ e he
          · simp at he
        · simp at he
      · split at he
        · split at he
          · rcases List.mem_cons.mp he with rfl | he
            · rfl
            · exact poolLoop_inventory hv _ e he
          · simp at he
        · simp at he
    · simp at he

theorem virtest_networks_inventory (hv : Hypervisor) :
    ∀ e ∈ Virtest.networks hv, e.isInventory = true := by
  intro e he
  unfold Virtest.networks at he
  simp only [List.mem_cons] at he
  rcases he with rfl | he
  · rfl
  · split at he
    · split at he
      · split at he
        · rcases List.mem_cons.mp he with rfl | he
          · rfl
          · exact printNames_inventory _ e he
        · simp at he
      · simp at he
    · simp at he

theorem virtest_report_inventory (hv : Hypervisor) :
    ∀ e ∈ (Virtest.report hv).trace, e.isInventory = true := by
  intro e he
  unfold Virtest.report at he
  simp only [List.mem_append] at he
  rcases he with (((((((he | he) | he) | he) | he) | he) | he) | he)
  · simp only [List.mem_cons, List.mem_singleton] at he
    rcases he with rfl | rfl | rfl | rfl | rfl | rfl | he <;> first | rfl | simp at he
  · split at he
    · simp only [List.mem_singleton] at he; subst he; rfl
    · simp at he
  · simp only [List.mem_cons, List.mem_singleton] at he
    rcases he with rfl | rfl | rfl | he <;> first | rfl | simp at he
  · exact virtest_storage_inventory hv e he
  · exact virtest_networks_inventory hv e he
  · simp only [List.mem_cons, List.mem_singleton] at he
    rcases he with rfl | rfl | rfl | rfl | he <;> first | rfl | simp at he
  · split at he
    · simp only [List.mem_cons, List.mem_singleton] at he
      rcases he with rfl | rfl | he <;> first | rfl | simp at he
    · simp at he
  · simp only [List.mem_cons, List.mem_singleton] at he
    rcases he with rfl | rfl | he <;> first | rfl | simp at he

theorem libvirt_storageSection_inventory (hv : Hypervisor) :
    ∀ e ∈ (Libvirt.storageSection hv).trace, e.isInventory = true := by
  intro e he
  unfold Libvirt.storageSection at he
  dsimp only at he
  split at he
  · split at he
    · simp only [List.mem_singleton] at he; subst he; rfl
    · split at he
      · simp only [List.mem_singleton] at he; subst he; rfl
      · rcases List.mem_append.mp he with he | he
        · simp only [List.mem_singleton] at he; subst he; rfl
        · rcases List.mem_cons.mp he with rfl | he
          · rfl
          · exact poolLoop_inventory hv _ e he
  · simp only [List.mem_singleton] at he; subst he; rfl

theorem libvirt_report_inventory (hv : Hypervisor) :
    ∀ e ∈ (Libvirt.report hv).trace, e.isInventory = true := by
  intro e he
  unfold Libvirt.report at he
  simp only [List.mem_append] at he
  rcases he with (he | he) | he
  · simp only [List.mem_cons, List.mem_singleton] at he
    rcases he with rfl | rfl | rfl | rfl | rfl | rfl | rfl | rfl | rfl | rfl | he <;>
      first | rfl | simp at he
  · exact libvirt_storageSection_inventory hv e he
  · simp only [List.mem_cons, List.mem_singleton] at he
    rcases he with rfl | rfl | rfl | rfl | rfl | rfl | rfl | rfl | he <;>
      first | rfl | simp at he

/-- The part of a run of either `main` before the deep report: the session
is opened, the report is printed and the domains are listed and released. -/
theorem listed_inventory (name : Option CStr) (user passwd : CStr) (rep : List Event)
    (hrep : ∀ e ∈ rep, e.isInventory = true) (hv : Hypervisor) (domList : List Handle) :
    ∀ e ∈ [Event.connectOpenAuth name user passwd] ++ rep ++
        (if (domList.length : Int) > 0
          then Event.stdout "Domains:\n" [] :: domainLoop hv domList else []),
      e = Event.connectOpenAuth name user passwd ∨ e.isInventory = true := by
  intro e he
  rcases List.mem_append.mp he with he | he
  · rcases List.mem_append.mp he with he | he
    · left; simpa using he
    · right; exact hrep e he
  · right
    split at he
    · rcases List.mem_cons.mp he with rfl | he
      · rfl
      · exact domainLoop_inventory hv _ e he
    · simp at he

theorem virtest_main_listed (hv : Hypervisor) (argv : List CStr) (domList : List Handle)
    (h3 : ¬ argv.length < 3) (hopen : hv.connectOpenAuth argv[3]? = true)
    (hdom : hv.listAllDomains = some domList) :
    Virtest.main hv argv =
      if argv.length = 5 then
        ⟨(Virtest.dom_info hv (argv.getD 4 [])).ret,
          [Event.connectOpenAuth argv[3]? (argv.getD 1 []) (argv.getD 2 [])]
            ++ (Virtest.report hv).trace ++
            (if (domList.length : Int) > 0
              then Event.stdout "Domains:\n" [] :: domainLoop hv domList else [])
            ++ (Virtest.dom_info hv (argv.getD 4 [])).trace ++ [Event.connectClose]⟩
      else
        ⟨(Virtest.report hv).ret,
          [Event.connectOpenAuth argv[3]? (argv.getD 1 []) (argv.getD 2 [])]
            ++ (Virtest.report hv).trace ++
            (if (domList.length : Int) > 0
              then Event.stdout "Domains:\n" [] :: domainLoop hv domList else [])
            ++ [Event.connectClose]⟩ := by
  unfold Virtest.main
  simp only [if_neg h3, hopen, hdom]
  rfl

theorem libvirt_main_listed (hv : Hypervisor) (argv : List CStr) (domList : List Handle)
    (h3 : ¬ argv.length < 3) (hopen : hv.connectOpenAuth argv[3]? = true)
    (hdom : hv.listAllDomains = some domList) :
    Libvirt.main hv argv =
      if argv.length = 5 then
        ⟨(Libvirt.node_info hv (argv.getD 4 [])).ret,
          [Event.connectOpenAuth argv[3]? (argv.getD 1 []) (argv.getD 2 [])]
            ++ (Libvirt.report hv).trace ++
            (if (domList.length : Int) > 0
              then Event.stdout "Domains:\n" [] :: domainLoop hv domList else [])
            ++ (Libvirt.node_info hv (argv.getD 4 [])).trace ++ [Event.connectClose]⟩
      else
        ⟨(Libvirt.report hv).ret,
          [Event.connectOpenAuth argv[3]? (argv.getD 1 []) (argv.getD 2 [])]
            ++ (Libvirt.report hv).trace ++
            (if (domList.length : Int) > 0
              then Event.stdout "Domains:\n" [] :: domainLoop hv domList else [])
            ++ [Event.connectClose]⟩ := by
  unfold Libvirt.main
  simp only [if_neg h3, hopen, hdom]
  rfl


theorem dom_info_miss (hv : Hypervisor) (name : CStr)
    (hmiss : hv.domainLookupByName name = none) :
    Virtest.dom_info hv name =
      ⟨-1, [Event.domainLookupByName name,
            Event.stderr "Domain %s not found\n" [Arg.str (some name)]]⟩ := by
  unfold Virtest.dom_info
  simp only [hmiss]

theorem node_info_miss (hv : Hypervisor) (name : CStr)
    (hmiss : hv.domainLookupByName name = none) :
    Libvirt.node_info hv name =
      ⟨-1, [Event.domainLookupByName name,
            Event.stderr "Domain %s not found\n" [Arg.str (some name)]]⟩ := by
  unfold Libvirt.node_info
  simp only [hmiss]

theorem dom_info_head (hv : Hypervisor) (name : CStr) :
    (Virtest.dom_info hv name).trace.head? = some (Event.domainLookupByName name) := by
  unfold Virtest.dom_info
  split
  · rfl
  · split <;> rfl

theorem node_info_head (hv : Hypervisor) (name : CStr) :
    (Libvirt.node_info hv name).trace.head? = some (Event.domainLookupByName name) := by
  unfold Libvirt.node_info
  split
  · rfl
  · split <;> rfl

theorem listed_no_lookup (name : Option CStr) (user passwd : CStr) (pre : List Event)
    (h : ∀ e ∈ pre, e = Event.connectOpenAuth name user passwd ∨ e.isInventory = true) :
    ∀ e ∈ pre, e.isLookup = false := by
  intro e he
  rcases h e he with rfl | hi
  · rfl
  · cases e <;> first | rfl | simp [Event.isInventory] at hi

theorem listed_no_close (name : Option CStr) (user passwd : CStr) (pre : List Event)
    (h : ∀ e ∈ pre, e = Event.connectOpenAuth name user passwd ∨ e.isInventory = true) :
    List.countP Event.isClose pre = 0 := by
  rw [List.countP_eq_zero]
  intro e he
  rcases h e he with rfl | hi
  · simp [Event.isClose]
  · cases e <;> first | (simp [Event.isInventory] at hi; done) | simp [Event.isClose]


/-! ## Handle release and return value in general -/

theorem poolsFreed_printNames (names : List CStr) : poolsFreed (printNames names) = [] := by
  induction names with
  | nil => rfl
  | cons n rest ih => simpa [printNames, poolsFreed] using ih

/-- The storage section of libvirt.c releases exactly the handles returned. -/
theorem libvirt_storageSection_frees (hv : Hypervisor) (pools : List Handle)
    (hn : hv.numOfStoragePools > 0)
    (hl : hv.listAllStoragePools hv.numOfStoragePools = some pools) :
    poolsFreed (Libvirt.storageSection hv).trace = pools := by
  unfold Libvirt.storageSection
  simp only [if_pos hn, hl]
  split_ifs with h
  · have : pools = [] := by
      cases pools with
      | nil => rfl
      | cons p rest => simp only [List.length_cons] at h; omega
    subst this
    rfl
  · simp only [poolsFreed_append, poolsFreed, poolsFreed_poolLoop, List.nil_append]

/-- The function `storage` of virtest.c releases exactly the handles returned
unless exactly one handle is returned. -/
theorem virtest_storage_frees (hv : Hypervisor) (pools : List Handle)
    (hn : hv.numOfStoragePools > 0)
    (hl : hv.listAllStoragePools hv.numOfStoragePools = some pools)
    (h1 : pools.length ≠ 1) :
    poolsFreed (Virtest.storage hv) = pools := by
  unfold Virtest.storage
  simp only [if_pos hn, hl, poolsFreed, poolsFreed_append]
  have hnames : poolsFreed (match hv.listStoragePools with
      | some npools =>
        if (npools.length : Int) = hv.numOfStoragePools then
          Event.stdout "Storage pools by name:\n" [] :: printNames npools
        else []
      | none => []) = [] := by
    split
    · split
      · simp only [poolsFreed, poolsFreed_printNames]
      · rfl
    · rfl
  rw [hnames, List.nil_append]
  split_ifs with h
  · simp only [poolsFreed, poolsFreed_poolLoop]
  · have : pools = [] := by
      cases pools with
      | nil => rfl
      | cons p rest =>
        simp only [List.length_cons] at h h1
        omega
    subst this
    rfl

/-- With three arguments after the program name, an open session and a
successful domain listing, `main` of virtest.c returns the answer of
`virConnectGetMaxVcpus` and `main` of libvirt.c the value the storage pool
section left in `ret`. -/
theorem main_ret_of_three_arguments (hv : Hypervisor) (argv : List CStr)
    (domList : List Handle) (h4 : argv.length = 4)
    (hopen : hv.connectOpenAuth argv[3]? = true)
    (hdom : hv.listAllDomains = some domList) :
    (Virtest.main hv argv).ret = hv.maxVcpus ∧
    (Libvirt.main hv argv).ret = (Libvirt.storageSection hv).ret := by
  have h3 : ¬ argv.length < 3 := by omega
  have h5 : ¬ argv.length = 5 := by omega
  rw [virtest_main_listed hv argv domList h3 hopen hdom,
    libvirt_main_listed hv argv domList h3 hopen hdom, if_neg h5, if_neg h5]
  exact ⟨rfl, rfl⟩

theorem dom_info_frees_nothing (hv : Hypervisor) (name : CStr) :
    domainsFreed (Virtest.dom_info hv name).trace = [] := by
  unfold Virtest.dom_info
  cases hv.domainLookupByName name with
  | none => rfl
  | some dom =>
    dsimp only
    cases hv.domainGetInfo dom with
    | none => rfl
    | some dinfo =>
      dsimp only
      cases hv.domainGetAutostart dom <;> cases hv.domainGetOSType dom <;>
        cases hv.domainGetXMLDesc dom <;> rfl

theorem node_info_frees_nothing (hv : Hypervisor) (name : CStr) :
    domainsFreed (Libvirt.node_info hv name).trace = [] := by
  unfold Libvirt.node_info
  cases hv.domainLookupByName name with
  | none => rfl
  | some dom =>
    dsimp only
    cases hv.domainGetInfo dom with
    | none => rfl
    | some dinfo =>
      dsimp only
      cases hv.domainGetAutostart dom <;> cases hv.domainGetOSType dom <;> rfl

theorem dom_info_no_close (hv : Hypervisor) (name : CStr) :
    List.countP Event.isClose (Virtest.dom_info hv name).trace = 0 := by
  unfold Virtest.dom_info
  cases hv.domainLookupByName name with
  | none => rfl
  | some dom =>
    dsimp only
    cases hv.domainGetInfo dom with
    | none => rfl
    | some dinfo =>
      dsimp only
      cases hv.domainGetAutostart dom <;> cases hv.domainGetOSType dom <;>
        cases hv.domainGetXMLDesc dom <;> rfl

theorem node_info_no_close (hv : Hypervisor) (name : CStr) :
    List.countP Event.isClose (Libvirt.node_info hv name).trace = 0 := by
  unfold Libvirt.node_info
  cases hv.domainLookupByName name with
  | none => rfl
  | some dom =>
    dsimp only
    cases hv.domainGetInfo dom with
    | none => rfl
    | some dinfo =>
      dsimp only
      cases hv.domainGetAutostart dom <;> cases hv.domainGetOSType dom <;> rfl

theorem inventory_no_close (l : List Event) (h : ∀ e ∈ l, e.isInventory = true) :
    List.countP Event.isClose l = 0 := by
  rw [List.countP_eq_zero]
  intro e he
  have hi := h e he
  cases e <;> first | (simp [Event.isInventory] at hi; done) | simp [Event.isClose]

/-- In virtest.c every run that opens the session closes it exactly once,
whether or not the domain listing succeeds. -/
theorem virtest_main_closes_once (hv : Hypervisor) (argv : List CStr)
    (h3 : ¬ argv.length < 3) (hopen : hv.connectOpenAuth argv[3]? = true) :
    List.countP Event.isClose (Virtest.main hv argv).trace = 1 := by
  cases hdom : hv.listAllDomains with
  | none =>
    have hrep := inventory_no_close _ (virtest_report_inventory hv)
    unfold Virtest.main
    simp only [if_neg h3, hopen, hdom]
    simp only [Bool.true_eq_false, if_false]
    rw [List.countP_append, List.countP_append, List.countP_append, hrep]
    rfl
  | some domList =>
    have hq := listed_no_close _ _ _ _ (listed_inventory argv[3]? (argv.getD 1 [])
      (argv.getD 2 []) (Virtest.report hv).trace (virtest_report_inventory hv) hv domList)
    rw [virtest_main_listed hv argv domList h3 hopen hdom]
    by_cases h5 : argv.length = 5
    · rw [if_pos h5]
      show List.countP Event.isClose (_ ++ _ ++ [Event.connectClose]) = 1
      rw [List.countP_append, List.countP_append, hq, dom_info_no_close]
      rfl
    · rw [if_neg h5]
      show List.countP Event.isClose (_ ++ [Event.connectClose]) = 1
      rw [List.countP_append, hq]
      rfl

/-- In libvirt.c a run that opens the session and lists the domains closes
the session exactly once. -/
theorem libvirt_main_closes_once_of_listing (hv : Hypervisor) (argv : List CStr)
    (domList : List Handle)
    (h3 : ¬ argv.length < 3) (hopen : hv.connectOpenAuth argv[3]? = true)
    (hdom : hv.listAllDomains = some domList) :
    List.countP Event.isClose (Libvirt.main hv argv).trace = 1 := by
  have hq := listed_no_close _ _ _ _ (listed_inventory argv[3]? (argv.getD 1 [])
    (argv.getD 2 []) (Libvirt.report hv).trace (libvirt_report_inventory hv) hv domList)
  rw [libvirt_main_listed hv argv domList h3 hopen hdom]
  by_cases h5 : argv.length = 5
  · rw [if_pos h5]
    show List.countP Event.isClose (_ ++ _ ++ [Event.connectClose]) = 1
    rw [List.countP_append, List.countP_append, hq, node_info_no_close]
    rfl
  · rw [if_neg h5]
    show List.countP Event.isClose (_ ++ [Event.connectClose]) = 1
    rw [List.countP_append, hq]
    rfl

/-- In libvirt.c a run that opens the session and fails to list the domains
never closes the session. -/
theorem libvirt_main_never_closes_of_failed_listing (hv : Hypervisor) (argv : List CStr)
    (h3 : ¬ argv.length < 3) (hopen : hv.connectOpenAuth argv[3]? = true)
    (hdom : hv.listAllDomains = none) :
    List.countP Event.isClose (Libvirt.main hv argv).trace = 0 ∧
    (Libvirt.main hv argv).ret = 1 := by
  have hrep := inventory_no_close _ (libvirt_report_inventory hv)
  unfold Libvirt.main
  simp only [if_neg h3, hopen, hdom]
  simp only [Bool.true_eq_false, if_false]
  rw [List.countP_append, List.countP_append, hrep]
  exact ⟨rfl, trivial⟩

/-! ## The entry point -/

theorem virtest_main_usage (hv : Hypervisor) (argv : List CStr) (h : argv.length < 3) :
    Virtest.main hv argv =
      ⟨EXIT_FAILURE, [Event.stderr "Usage: libvirt <user> <passwd> <uri>" []]⟩ := by
  unfold Virtest.main
  simp only [if_pos h]

theorem libvirt_main_usage (hv : Hypervisor) (argv : List CStr) (h : argv.length < 3) :
    Libvirt.main hv argv =
      ⟨EXIT_FAILURE, [Event.stderr "Usage: libvirt <user> <passwd> <uri>" []]⟩ := by
  unfold Libvirt.main
  simp only [if_pos h]

/-- C3, failing input: with exactly two arguments after the program name
(`argc = 3`) neither `main` stops at the usage check; the first thing each
does is call `virConnectOpenAuth` with the NULL pointer `argv[3]` as the URI
and with the two arguments as the credential pair. -/
theorem main_two_arguments_opens_session (hv : Hypervisor) (prog user passwd : CStr) :
    (Virtest.main hv [prog, user, passwd]).trace.head?
        = some (Event.connectOpenAuth none user passwd) ∧
    (Libvirt.main hv [prog, user, passwd]).trace.head?
        = some (Event.connectOpenAuth none user passwd) := by
  constructor
  · unfold Virtest.main
    cases hopen : hv.connectOpenAuth none <;> cases hdom : hv.listAllDomains <;>
      simp [hopen, hdom]
  · unfold Libvirt.main
    cases hopen : hv.connectOpenAuth none <;> cases hdom : hv.listAllDomains <;>
      simp [hopen, hdom]

/-- C4, failing input: with three arguments after the program name and every
query answered, `main` of virtest.c returns the maximum vCPU count (16 on
the quiet host, which has no pools, networks or domains) and `main` of
libvirt.c returns the number of storage pools listed (1 on the host with one
pool), not 0. -/
theorem main_success_returns_query_value :
    (Virtest.main quietHost [[118], [117], [112], [116]]).ret = 16 ∧
    (Libvirt.main onePoolHost [[118], [117], [112], [116]]).ret = 1 ∧
    (Libvirt.main quietHost [[118], [117], [112], [116]]).ret = 0 := by
  decide

/-- C5, failing input: when `virConnectListAllDomains` returns -1 after the
session was opened, `main` of libvirt.c returns 1 with the session opened
once and never closed; `main` of virtest.c closes it once on the same host. -/
theorem libvirt_main_leaves_session_open :
    List.countP Event.isOpen (Libvirt.main noListHost [[118], [117], [112], [116]]).trace = 1 ∧
    List.countP Event.isClose (Libvirt.main noListHost [[118], [117], [112], [116]]).trace = 0 ∧
    (Libvirt.main noListHost [[118], [117], [112], [116]]).ret = 1 ∧
    List.countP Event.isClose (Virtest.main noListHost [[118], [117], [112], [116]]).trace = 1 := by
  decide

/-- C6, failing input: when `virConnectListAllStoragePools` returns exactly
one handle, `storage` of virtest.c releases none, while the storage section
of libvirt.c releases it. -/
theorem virtest_storage_leaks_single_pool :
    onePoolHost.listAllStoragePools onePoolHost.numOfStoragePools = some [41] ∧
    poolsFreed (Virtest.storage onePoolHost) = [] ∧
    poolsFreed (Libvirt.storageSection onePoolHost).trace = [41] := by
  decide

/-- C8, counterexample: on a host where the named domain does not exist, the
run with the domain name returns -1 while the same run without it returns
another value (16 in virtest.c, 0 in libvirt.c). -/
theorem lookup_miss_changes_exit_status :
    quietHost.domainLookupByName [118, 109] = none ∧
    (Virtest.main quietHost [[118], [117], [112], [116], [118, 109]]).ret = -1 ∧
    (Virtest.main quietHost [[118], [117], [112], [116]]).ret = 16 ∧
    (Libvirt.main quietHost [[118], [117], [112], [116], [118, 109]]).ret = -1 ∧
    (Libvirt.main quietHost [[118], [117], [112], [116]]).ret = 0 := by
  decide

/-- C10, failing input: on a host where the lookup of `vm` returns handle 7,
`dom_info` and `node_info` return without any `virDomainFree`, both when the
report is printed (return 0) and when the info fetch fails (return -1). -/
theorem deep_report_never_frees_domain :
    vmHost.domainLookupByName [118, 109] = some 7 ∧
    (Virtest.dom_info vmHost [118, 109]).ret = 0 ∧
    domainsFreed (Virtest.dom_info vmHost [118, 109]).trace = [] ∧
    (Virtest.dom_info vmNoInfoHost [118, 109]).ret = -1 ∧
    domainsFreed (Virtest.dom_info vmNoInfoHost [118, 109]).trace = [] ∧
    (Libvirt.node_info vmHost [118, 109]).ret = 0 ∧
    domainsFreed (Libvirt.node_info vmHost [118, 109]).trace = [] ∧
    (Libvirt.node_info vmNoInfoHost [118, 109]).ret = -1 ∧
    domainsFreed (Libvirt.node_info vmNoInfoHost [118, 109]).trace = [] := by
  decide

/-! ## Memory conversion -/

theorem bitsAux_le (k fuel n : Nat) (h : n < 2 ^ k) : bitsAux fuel n ≤ k := by
  induction fuel generalizing k n with
  | zero => simp [bitsAux]
  | succ f ih =>
    unfold bitsAux
    split_ifs with h0
    · exact Nat.zero_le _
    · cases k with
      | zero => omega
      | succ j =>
        have hdiv : n / 2 < 2 ^ j := by
          rw [Nat.pow_succ] at h
          omega
        exact Nat.succ_le_succ (ih j (n / 2) hdiv)

/-- An integer below `2^24` is a `float`: the conversion is exact. -/
theorem toFloat_of_lt (M : Nat) (h : M < 2 ^ 24) : toFloat (M : Int) = M := by
  have hb : bits M - 24 = 0 := by
    have := bitsAux_le 24 M M h
    unfold bits
    omega
  unfold toFloat
  simp only [Int.natAbs_ofNat, hb, pow_zero, Nat.div_one, Nat.mod_one, mul_one]
  rcases Nat.eq_zero_or_pos M with rfl | hpos
  · simp
  · have hs : ((M : Nat) : Int).sign = 1 := Int.sign_eq_one_of_pos (by exact_mod_cast hpos)
    simp [hs]

/-- Below `2^24` KB (16 GiB) both programs hand `M / 1024 / 1024` to the
formatter. -/
theorem ktog_exact_of_lt (M : Nat) (h : M < 2 ^ 24) :
    Virtest.ktog (toFloat M) = (M : Rat) / 1024 / 1024 ∧
    Libvirt.ktog (toInt M) = (M : Rat) / 1024 / 1024 := by
  have h32 : M % 2 ^ 32 = M := Nat.mod_eq_of_lt (by omega)
  have hi : toInt M = (M : Int) := by
    unfold toInt
    simp only [h32]
    rw [if_pos (by omega)]
  constructor
  · unfold Virtest.ktog
    rw [toFloat_of_lt M h, Int.cast_natCast]
  · unfold Libvirt.ktog
    rw [hi, toFloat_of_lt M h, Int.cast_natCast]

/-- C7, failing input: for a maximum memory of `2^31` KB (2 TiB), `ktog` of
libvirt.c receives the `int` -2147483648 and hands -2048 to the formatter,
which `node_info` prints as the maximum memory; `M / 1024 / 1024` is 2048,
the value `ktog` of virtest.c hands over. -/
theorem libvirt_ktog_wraps_at_two_tib :
    Libvirt.ktog (toInt 2147483648) = -2048 ∧
    Virtest.ktog (toFloat 2147483648) = 2048 ∧
    (2147483648 : Rat) / 1024 / 1024 = 2048 ∧
    Event.stdout "\tMax Memory Allowed: %.2fG\n" [Arg.real (-2048)]
      ∈ (Libvirt.node_info vmHost [118, 109]).trace := by
  have h1 : toFloat (toInt 2147483648) = -2147483648 := by decide
  have h2 : toFloat (2147483648 : Int) = 2147483648 := by decide
  have h3 : Libvirt.ktog (toInt 2147483648) = -2048 := by
    unfold Libvirt.ktog
    rw [h1]
    norm_num
  refine ⟨h3, ?_, by norm_num, ?_⟩
  · unfold Virtest.ktog
    rw [h2]
    norm_num
  · have ht : (Libvirt.node_info vmHost [118, 109]).trace.get? 3
        = some (Event.stdout "\tMax Memory Allowed: %.2fG\n"
            [Arg.real (Libvirt.ktog (toInt 2147483648))]) := rfl
    rw [h3] at ht
    exact List.get?_mem ht

/-! ## The deep report -/

/-- C9: in a run of either program in which the session opens and the domain
listing succeeds, with four arguments after the program name the deep report
(`dom_info`, `node_info`) runs on the fourth one, after the inventory and
before the session is closed, and its return value is that of `main`; with
three arguments no domain lookup takes place at all. -/
theorem deep_report_runs_iff_four_arguments (hv : Hypervisor)
    (prog user passwd uri name : CStr) (domList : List Handle)
    (hopen : hv.connectOpenAuth (some uri) = true)
    (hdom : hv.listAllDomains = some domList) :
    ((∃ pre, (∀ e ∈ pre, e.isLookup = false) ∧
        (Virtest.main hv [prog, user, passwd, uri, name]).trace
          = pre ++ (Virtest.dom_info hv name).trace ++ [Event.connectClose]) ∧
      (Virtest.main hv [prog, user, passwd, uri, name]).ret = (Virtest.dom_info hv name).ret ∧
      (Virtest.dom_info hv name).trace.head? = some (Event.domainLookupByName name) ∧
      ∀ e ∈ (Virtest.main hv [prog, user, passwd, uri]).trace, e.isLookup = false) ∧
    ((∃ pre, (∀ e ∈ pre, e.isLookup = false) ∧
        (Libvirt.main hv [prog, user, passwd, uri, name]).trace
          = pre ++ (Libvirt.node_info hv name).trace ++ [Event.connectClose]) ∧
      (Libvirt.main hv [prog, user, passwd, uri, name]).ret = (Libvirt.node_info hv name).ret ∧
      (Libvirt.node_info hv name).trace.head? = some (Event.domainLookupByName name) ∧
      ∀ e ∈ (Libvirt.main hv [prog, user, passwd, uri]).trace, e.isLookup = false) := by
  have v5 := virtest_main_listed hv [prog, user, passwd, uri, name] domList
    (by simp) hopen hdom
  have v4 := virtest_main_listed hv [prog, user, passwd, uri] domList
    (by simp) hopen hdom
  have l5 := libvirt_main_listed hv [prog, user, passwd, uri, name] domList
    (by simp) hopen hdom
  have l4 := libvirt_main_listed hv [prog, user, passwd, uri] domList
    (by simp) hopen hdom
  rw [if_pos (show [prog, user, passwd, uri, name].length = 5 from rfl)] at v5 l5
  rw [if_neg (show ¬ [prog, user, passwd, uri].length = 5 by simp)] at v4 l4
  have hvq := listed_inventory (some uri) user passwd (Virtest.report hv).trace
    (virtest_report_inventory hv) hv domList
  have hlq := listed_inventory (some uri) user passwd (Libvirt.report hv).trace
    (libvirt_report_inventory hv) hv domList
  refine ⟨⟨⟨_, listed_no_lookup _ _ _ _ hvq, ?_⟩, ?_, dom_info_head hv name, ?_⟩,
    ⟨⟨_, listed_no_lookup _ _ _ _ hlq, ?_⟩, ?_, node_info_head hv name, ?_⟩⟩
  · rw [v5]; rfl
  · rw [v5]; rfl
  · rw [v4]
    intro e he
    rcases List.mem_append.mp he with he | he
    · exact listed_no_lookup _ _ _ _ hvq e he
    · simp only [List.mem_singleton] at he; subst he; rfl
  · rw [l5]; rfl
  · rw [l5]; rfl
  · rw [l4]
    intro e he
    rcases List.mem_append.mp he with he | he
    · exact listed_no_lookup _ _ _ _ hlq e he
    · simp only [List.mem_singleton] at he; subst he; rfl

/-- The run on the host with the domain `vm`, asked for its deep report. -/
theorem deep_report_runs_iff_four_arguments_witness :
    vmHost.connectOpenAuth (some [116]) = true ∧ vmHost.listAllDomains = some [7] ∧
    (Virtest.main vmHost [[118], [117], [112], [116], [118, 109]]).ret
      = (Virtest.dom_info vmHost [118, 109]).ret ∧
    (Libvirt.main vmHost [[118], [117], [112], [116], [118, 109]]).ret
      = (Libvirt.node_info vmHost [118, 109]).ret :=
  ⟨rfl, rfl,
    (deep_report_runs_iff_four_arguments vmHost [118] [117] [112] [116] [118, 109] [7]
      rfl rfl).1.2.1,
    (deep_report_runs_iff_four_arguments vmHost [118] [117] [112] [116] [118, 109] [7]
      rfl rfl).2.2.1⟩

/-- C8, amended: in a run of either program in which the session opens and
the domain listing succeeds, when the domain named by the fourth argument does
not exist the deep report writes nothing to standard output (it looks the
name up and writes one diagnostic to standard error), everything before it is
as in the run without the domain name, the session is closed exactly once,
and `main` returns the -1 of the failed lookup. -/
theorem lookup_miss_skips_report_and_returns_minus_one (hv : Hypervisor)
    (prog user passwd uri name : CStr) (domList : List Handle)
    (hopen : hv.connectOpenAuth (some uri) = true)
    (hdom : hv.listAllDomains = some domList)
    (hmiss : hv.domainLookupByName name = none) :
    ((∃ pre,
        (Virtest.main hv [prog, user, passwd, uri]).trace = pre ++ [Event.connectClose] ∧
        (Virtest.main hv [prog, user, passwd, uri, name]).trace
          = pre ++ (Virtest.dom_info hv name).trace ++ [Event.connectClose]) ∧
      (Virtest.dom_info hv name).trace
        = [Event.domainLookupByName name,
           Event.stderr "Domain %s not found\n" [Arg.str (some name)]] ∧
      List.countP Event.isStdout (Virtest.dom_info hv name).trace = 0 ∧
      List.countP Event.isClose (Virtest.main hv [prog, user, passwd, uri, name]).trace = 1 ∧
      (Virtest.main hv [prog, user, passwd, uri, name]).ret = -1) ∧
    ((∃ pre,
        (Libvirt.main hv [prog, user, passwd, uri]).trace = pre ++ [Event.connectClose] ∧
        (Libvirt.main hv [prog, user, passwd, uri, name]).trace
          = pre ++ (Libvirt.node_info hv name).trace ++ [Event.connectClose]) ∧
      (Libvirt.node_info hv name).trace
        = [Event.domainLookupByName name,
           Event.stderr "Domain %s not found\n" [Arg.str (some name)]] ∧
      List.countP Event.isStdout (Libvirt.node_info hv name).trace = 0 ∧
      List.countP Event.isClose (Libvirt.main hv [prog, user, passwd, uri, name]).trace = 1 ∧
      (Libvirt.main hv [prog, user, passwd, uri, name]).ret = -1) := by
  have v5 := virtest_main_listed hv [prog, user, passwd, uri, name] domList
    (by simp) hopen hdom
  have v4 := virtest_main_listed hv [prog, user, passwd, uri] domList
    (by simp) hopen hdom
  have l5 := libvirt_main_listed hv [prog, user, passwd, uri, name] domList
    (by simp) hopen hdom
  have l4 := libvirt_main_listed hv [prog, user, passwd, uri] domList
    (by simp) hopen hdom
  rw [if_pos (show [prog, user, passwd, uri, name].length = 5 from rfl)] at v5 l5
  rw [if_neg (show ¬ [prog, user, passwd, uri].length = 5 by simp)] at v4 l4
  have dv := dom_info_miss hv name hmiss
  have dl := node_info_miss hv name hmiss
  have cv := virtest_main_closes_once hv [prog, user, passwd, uri, name] (by simp) hopen
  have cl := libvirt_main_closes_once_of_listing hv [prog, user, passwd, uri, name] domList
    (by simp) hopen hdom
  refine ⟨⟨⟨[Event.connectOpenAuth (some uri) user passwd] ++ (Virtest.report hv).trace ++
        (if (domList.length : Int) > 0
          then Event.stdout "Domains:\n" [] :: domainLoop hv domList else []), ?_, ?_⟩,
      ?_, ?_, cv, ?_⟩,
    ⟨⟨[Event.connectOpenAuth (some uri) user passwd] ++ (Libvirt.report hv).trace ++
        (if (domList.length : Int) > 0
          then Event.stdout "Domains:\n" [] :: domainLoop hv domList else []), ?_, ?_⟩,
      ?_, ?_, cl, ?_⟩⟩
  · rw [v4]; rfl
  · rw [v5]; rfl
  · rw [dv]
  · rw [dv]; rfl
  · rw [v5]
    show (Virtest.dom_info hv name).ret = -1
    rw [dv]
  · rw [l4]; rfl
  · rw [l5]; rfl
  · rw [dl]
  · rw [dl]; rfl
  · rw [l5]
    show (Libvirt.node_info hv name).ret = -1
    rw [dl]

/-- The run on the quiet host, asked for the deep report of a domain `vm`
that does not exist. -/
theorem lookup_miss_skips_report_and_returns_minus_one_witness :
    quietHost.connectOpenAuth (some [116]) = true ∧ quietHost.listAllDomains = some [] ∧
    quietHost.domainLookupByName [118, 109] = none ∧
    (Virtest.main quietHost [[118], [117], [112], [116], [118, 109]]).ret = -1 ∧
    (Libvirt.main quietHost [[118], [117], [112], [116], [118, 109]]).ret = -1 :=
  ⟨rfl, rfl, rfl,
    (lookup_miss_skips_report_and_returns_minus_one quietHost [118] [117] [112] [116]
      [118, 109] [] rfl rfl rfl).1.2.2.2.2,
    (lookup_miss_skips_report_and_returns_minus_one quietHost [118] [117] [112] [116]
      [118, 109] [] rfl rfl rfl).2.2.2.2.2⟩
